import Mathlib

/-!
Shallow embedding of the crawler's HTTP layer (src/src/http.ts) and of the
parts of its scheduling interface that the layer uses.  Headers are
modelled as the ordered key-value bindings of a JavaScript object literal;
the retry pipeline, the download stream aggregation, the response-context
callbacks and the cancellation wiring are translated from the source line
by line.  The Task class and the Task Queue's push live in scheduler.ts,
which is not among the sources; they are modelled from the spec where
noted.
-/

namespace Crawler

/-- HTTP headers as the bindings of a JavaScript object literal in
insertion order; a later binding for the same key overrides an earlier
one, exactly as with object spread (src/src/http.ts lines 129-135). -/
abbrev Headers := List (String × String)

/-- Right-biased choice: the first argument (the later spread source)
wins when present. -/
def oOr {α : Type} : Option α → Option α → Option α
  | some v, _ => some v
  | none, y => y

/-- Lookup in a header list under JavaScript-object semantics: the last
binding of the key wins. -/
def hGet : Headers → String → Option String
  | [], _ => none
  | (k, v) :: rest, key =>
    match hGet rest key with
    | some v' => some v'
    | none => if k = key then some v else none

/-- `delete obj[key]` (src/src/http.ts lines 268, 292): remove every
binding of the key. -/
def hErase (h : Headers) (key : String) : Headers :=
  h.filter (fun p => p.1 ≠ key)

/-- Axios proxy option, as read at lines 260-261: a host and a port. -/
structure ProxyConfig where
  host : String
  port : Nat
deriving DecidableEq

/-- The option object handed to the download package.  Only the keys the
source ever writes (headers, proxy) are modelled; `none` means the key is
absent from the object. -/
structure DownloadOptions where
  headers : Option Headers := none
  proxy : Option String := none
deriving DecidableEq

/-- The two task kinds used in the constructor calls at lines 173, 311,
312 and 323. -/
inductive TaskKind
  | request
  | download
deriving DecidableEq

/-- Fourth constructor argument of `Task`: either a request body payload
or the `{ filepath, options }` record of a download task (line 173). -/
inductive TaskBody
  | data (payload : String)
  | downloadBody (filepath : String) (options : Option DownloadOptions)
deriving DecidableEq

/-- Modelled from the spec: `Task — unit of work` with kind, method, url,
body and headers fields (spec §3).  The class itself lives in
scheduler.ts, which is missing from the sources, so the fields mirror the
constructor calls in src/src/http.ts (lines 173, 311-315, 323-329). -/
structure Task where
  kind : TaskKind
  method : Option String
  url : String
  body : Option TaskBody
  headers : Option Headers
deriving DecidableEq

/-- Modelled from the spec: the Task Queue's `push(task)` appends to the
tail (spec §4.1); the Scheduler's code is not among the sources. -/
def push (q : List Task) (t : Task) : List Task := q ++ [t]

/-- The axios request config built by Http.request (lines 122-137);
`cancelToken` records that the shared cancellation token is attached. -/
structure RequestConfig where
  url : String
  method : String
  proxy : Option ProxyConfig
  timeout : Nat
  data : Option String
  auth : Option String
  headers : Headers
  cancelToken : Bool
deriving DecidableEq

/-- The values produced by the four resolver calls (lines 115-120):
absent proxy/user-agent/auth resolvers yield `undefined`, an absent
headers resolver yields the empty object. -/
structure ResolvedAgents where
  proxy : Option ProxyConfig
  userAgent : Option String
  headers : Headers
  auth : Option String
deriving DecidableEq

/-- The header object injected for the resolved user agent (line 134):
`_userAgent ? { "User-Agent": _userAgent } : {}`. -/
def userAgentHeaders : Option String → Headers
  | some ua => [("User-Agent", ua)]
  | none => []

/-- Http.request lines 110-137: the default Reference header, the
five-way header spread, and the shared cancel token (line 136). -/
def mkRequestConfig (url method : String) (body : Option String)
    (httpHeaders : Option Headers) (providerDefaultHeaders : Option Headers)
    (timeout : Nat) (r : ResolvedAgents) : RequestConfig :=
  { url := url
    method := method
    proxy := r.proxy
    timeout := timeout
    data := body
    auth := r.auth
    headers :=
      [("Reference", url)] ++ providerDefaultHeaders.getD [] ++
        httpHeaders.getD [] ++ r.headers ++ userAgentHeaders r.userAgent
    cancelToken := true }

instance : DecidableEq (Except String Unit) := fun a b =>
  match a, b with
  | .ok (), .ok () => isTrue rfl
  | .error e, .error f =>
    if h : e = f then isTrue (by rw [h])
    else isFalse (fun hh => by cases hh; exact h rfl)
  | .ok _, .error _ => isFalse (fun hh => by cases hh)
  | .error _, .ok _ => isFalse (fun hh => by cases hh)

/-- Outcome trace of one `pRetry(run, { retries, onFailedAttempt })` call:
how many times `run` ran, the `(attemptNumber, retriesLeft)` pairs handed
to `onFailedAttempt` in order, and the final settlement. -/
structure RetryResult where
  attempts : Nat
  notifications : List (Nat × Nat)
  result : Except String Unit
deriving DecidableEq

/-- p-retry semantics as used at lines 153-160 and 218-228: every failed
attempt first invokes `onFailedAttempt` with its attempt number and the
retries left; with retries left the operation is re-attempted, otherwise
the last error settles the promise. -/
def pRetryRun (attempt : Nat → Except String Unit) : Nat → Nat → RetryResult
  | attemptNumber, 0 =>
    match attempt attemptNumber with
    | .ok _ => { attempts := 1, notifications := [], result := .ok () }
    | .error e =>
      { attempts := 1, notifications := [(attemptNumber, 0)], result := .error e }
  | attemptNumber, n + 1 =>
    match attempt attemptNumber with
    | .ok _ => { attempts := 1, notifications := [], result := .ok () }
    | .error _ =>
      let rest := pRetryRun attempt (attemptNumber + 1) n
      { attempts := rest.attempts + 1
        notifications := (attemptNumber, n + 1) :: rest.notifications
        result := rest.result }

/-- `pRetry(run, { retries })`: attempt numbers start at 1 with `retries`
retries left. -/
def pRetry (attempt : Nat → Except String Unit) (retries : Nat) : RetryResult :=
  pRetryRun attempt 1 retries

/-- Whether an `Except` settlement is an error. -/
def exceptIsError : Except String Unit → Bool
  | .error _ => true
  | .ok _ => false

/-- Per-execution trace of Http.request: the four resolver calls happen
once, at lines 115-120, before `run` is even defined, and `pRetry`
re-runs only `run` (lines 143-160), so no attempt re-resolves.  Each
`...Calls` field counts that resolver's invocations over the whole
execution. -/
structure HttpExec where
  proxyCalls : Nat
  userAgentCalls : Nat
  headersCalls : Nat
  authCalls : Nat
  retryRun : RetryResult
deriving DecidableEq

/-- Control flow of Http.request (lines 110-161): resolve each configured
resolver exactly once, then hand the fixed config to `pRetry`. -/
def httpRequestExec (hasProxy hasUserAgent hasHeaders hasAuth : Bool)
    (retries : Nat) (attempt : Nat → Except String Unit) : HttpExec :=
  { proxyCalls := if hasProxy then 1 else 0
    userAgentCalls := if hasUserAgent then 1 else 0
    headersCalls := if hasHeaders then 1 else 0
    authCalls := if hasAuth then 1 else 0
    retryRun := pRetry attempt retries }

/-- A span of abstract time units during which one resolver call runs. -/
structure Interval where
  start : Nat
  stop : Nat
deriving DecidableEq

/-- Evaluation order of the array literal at lines 115-120: each element
holds an inline `await resolver.resolve(...)`, so element i+1 is not
evaluated — and its resolver not called — until element i's await has
settled.  Given each configured resolver's duration this yields the call
intervals. -/
def resolverIntervals : Nat → List Nat → List Interval
  | _, [] => []
  | t, d :: ds => { start := t, stop := t + d } :: resolverIntervals (t + d) ds

/-- Two calls overlap when each starts strictly before the other stops. -/
def overlaps (a b : Interval) : Bool :=
  decide (a.start < b.stop) && decide (b.start < a.stop)

/-- An in-flight network operation: an axios request launched with the
config of line 145, or a call to the download package (line 193), which
receives only a url and the download options. -/
inductive NetOp
  | request (config : RequestConfig)
  | download (url : String) (filepath : String) (options : Option DownloadOptions)
deriving DecidableEq

/-- Effect of Http.cancel (lines 233-235) on an in-flight operation:
axios aborts exactly the requests whose config carries the shared token;
downloadResource (lines 182-229) hands the download package no token, so
a download call is never aborted by it. -/
def abortsOnCancel : NetOp → Bool
  | .request config => config.cancelToken
  | .download _ _ _ => false

/-- An observable stream event during one download attempt. -/
inductive StreamEvent
  | sourceError (msg : String)
  | destError (msg : String)
  | finish
deriving DecidableEq

/-- State of one download attempt's promise executor (lines 190-213): the
`error` variable and the promise settlement.  A promise settles only
once; later resolve/reject calls are ignored. -/
structure DownloadAttemptState where
  error : Option String
  settled : Option (Except String Unit)
deriving DecidableEq

/-- Settle the attempt's promise, keeping an earlier settlement. -/
def settle (s : DownloadAttemptState) (o : Except String Unit) : DownloadAttemptState :=
  { s with settled := oOr s.settled (some o) }

/-- One stream event, following lines 195-212: the source stream's catch
handler sets `error` and rejects unconditionally; the destination
stream's error handler and the finish handler are guarded by
`if (!error)`. -/
def downloadStep (s : DownloadAttemptState) : StreamEvent → DownloadAttemptState
  | .sourceError m => settle { s with error := some m } (.error m)
  | .destError m =>
    if s.error.isNone then settle { s with error := some m } (.error m) else s
  | .finish => if s.error.isNone then settle s (.ok ()) else s

/-- Run one download attempt over its observed stream events. -/
def downloadAttempt (events : List StreamEvent) : DownloadAttemptState :=
  events.foldl downloadStep { error := none, settled := none }

/-- `_proxy ? _proxy.host + ":" + _proxy.port : undefined` (lines 260-261
and 284-285). -/
def formatProxy : Option ProxyConfig → Option String
  | some p => some (p.host ++ ":" ++ toString p.port)
  | none => none

/-- Option object built by $.downloadInQueue (lines 260-274): headers are
a copy of the response config's headers with `Accept` deleted, proxy is
`host:port`, and the caller's options object is spread last, its present
keys replacing the inherited ones wholesale. -/
def downloadInQueueOptions (respConfig : RequestConfig)
    (options : Option DownloadOptions) : DownloadOptions :=
  let pureHeaders := hErase respConfig.headers "Accept"
  let inherited : DownloadOptions :=
    { headers := some pureHeaders, proxy := formatProxy respConfig.proxy }
  match options with
  | none => inherited
  | some o =>
    { headers := oOr o.headers inherited.headers
      proxy := oOr o.proxy inherited.proxy }

/-- Option object built by $.download (lines 284-298); same shape as the
one of $.downloadInQueue, transcribed from its own lines. -/
def downloadCbOptions (respConfig : RequestConfig)
    (options : Option DownloadOptions) : DownloadOptions :=
  let pureHeaders := hErase respConfig.headers "Accept"
  let inherited : DownloadOptions :=
    { headers := some pureHeaders, proxy := formatProxy respConfig.proxy }
  match options with
  | none => inherited
  | some o =>
    { headers := oOr o.headers inherited.headers
      proxy := oOr o.proxy inherited.proxy }

/-- $.downloadInQueue (lines 255-276): build the option object and call
Http.download (lines 168-175), which pushes one download Task.  The
closure can read `crawler.active` but never does; the first parameter
records the flag's value at call time. -/
def downloadInQueue (_active : Bool) (respConfig : RequestConfig) (q : List Task)
    (url filepath : String) (options : Option DownloadOptions) : List Task :=
  push q
    { kind := .download
      method := some "GET"
      url := url
      body := some (.downloadBody filepath (some (downloadInQueueOptions respConfig options)))
      headers := none }

/-- The argument of $.follow: a bare URL string or a request descriptor
(type `Url` at line 50). -/
inductive Url
  | str (s : String)
  | customer (url : String) (method : Option String) (body : Option String)
      (headers : Option Headers)
deriving DecidableEq

/-- JavaScript truthiness of the follow argument at line 304: the empty
string is falsy, any object is truthy. -/
def urlTruthy : Url → Bool
  | .str s => s != ""
  | .customer _ _ _ _ => true

/-- The Task built by $.follow (lines 306-315): a bare string yields a
GET with no body and only the default Reference header; a descriptor
contributes its method, url and body, with its headers spread over the
default Reference header. -/
def followTask (respConfig : RequestConfig) : Url → Task
  | .str s =>
    { kind := .request
      method := some "GET"
      url := s
      body := none
      headers := some [("Reference", respConfig.url)] }
  | .customer u m b h =>
    { kind := .request
      method := m
      url := u
      body := b.map TaskBody.data
      headers := some ([("Reference", respConfig.url)] ++ h.getD []) }

/-- $.follow (lines 303-318): gated on `crawler.active && nextUrl`. -/
def follow (active : Bool) (respConfig : RequestConfig) (q : List Task)
    (nextUrl : Url) : List Task :=
  if active && urlTruthy nextUrl then push q (followTask respConfig nextUrl) else q

/-- `(response.config.method as Method) || "GET"` (line 322): the empty
string stands for a falsy method. -/
def methodOrGet (m : String) : String := if m = "" then "GET" else m

/-- $.retry (lines 321-331): always pushes a new request Task replaying
the response's config.  The closure can read `crawler.active` but never
does; the first parameter records the flag's value at call time. -/
def retryCb (_active : Bool) (respConfig : RequestConfig) (q : List Task) : List Task :=
  push q
    { kind := .request
      method := some (methodOrGet respConfig.method)
      url := respConfig.url
      body := respConfig.data.map TaskBody.data
      headers := some respConfig.headers }

/-- A concrete resolved request config for concrete-input checks. -/
def sampleConfig : RequestConfig :=
  { url := "https://example.com/page"
    method := "GET"
    proxy := none
    timeout := 5000
    data := none
    auth := none
    headers := [("Reference", "https://example.com/page"), ("Accept", "text/html")]
    cancelToken := true }

theorem oOr_none {α : Type} (x : Option α) : oOr x none = x := by
  cases x <;> rfl

theorem oOr_assoc {α : Type} (x y z : Option α) :
    oOr (oOr x y) z = oOr x (oOr y z) := by
  cases x <;> rfl

theorem hGet_append (a b : Headers) (k : String) :
    hGet (a ++ b) k = oOr (hGet b k) (hGet a k) := by
  induction a with
  | nil => simp [hGet, oOr_none]
  | cons p rest ih =>
    obtain ⟨k', v⟩ := p
    cases hb : hGet b k <;> cases hr : hGet rest k <;>
      simp_all [hGet, oOr]

theorem hGet_hErase (h : Headers) (k : String) : hGet (hErase h k) k = none := by
  induction h with
  | nil => rfl
  | cons p rest ih =>
    obtain ⟨k', v⟩ := p
    by_cases hk : k' = k
    · have he : hErase ((k', v) :: rest) k = hErase rest k := by
        simp [hErase, hk]
      rw [he]; exact ih
    · have he : hErase ((k', v) :: rest) k = (k', v) :: hErase rest k := by
        simp [hErase, hk]
      rw [he]
      simp only [hGet, ih]
      simp [hk]

/-- C5: when the source stream and the destination stream both error, in
either order, the download attempt settles exactly once, with the message
of the error observed first; the later error from the other stream is
suppressed. -/
theorem download_first_error_wins (m1 m2 : String) :
    (downloadAttempt [.destError m1, .sourceError m2]).settled =
      some (.error m1) ∧
    (downloadAttempt [.sourceError m1, .destError m2]).settled =
      some (.error m1) :=
  ⟨rfl, rfl⟩

/-- C6: the header map of the resolved request config is the five-way
spread in which, for every key bound by several sources, the later source
wins: user-agent injection over resolver headers over caller-supplied
headers over provider default headers over the default Reference
header. -/
theorem request_header_precedence (url method : String) (body : Option String)
    (httpHeaders providerDefaultHeaders : Option Headers) (timeout : Nat)
    (r : ResolvedAgents) (k : String) :
    hGet (mkRequestConfig url method body httpHeaders providerDefaultHeaders
        timeout r).headers k =
      oOr (hGet (userAgentHeaders r.userAgent) k)
        (oOr (hGet r.headers k)
          (oOr (hGet (httpHeaders.getD []) k)
            (oOr (hGet (providerDefaultHeaders.getD []) k)
              (hGet [("Reference", url)] k)))) := by
  simp only [mkRequestConfig, hGet_append]

/-- C7: downloadInQueue pushes exactly one download Task, whatever the
active flag; its options inherit the response's proxy and its headers
with `Accept` deleted (so `Accept` is absent even when the response's
headers bound it), and present keys of the caller's options replace the
inherited ones. -/
theorem downloadInQueue_spec (a : Bool) (respConfig : RequestConfig)
    (q : List Task) (url filepath : String) (options : Option DownloadOptions) :
    downloadInQueue a respConfig q url filepath options =
      q ++ [{ kind := .download
              method := some "GET"
              url := url
              body := some (.downloadBody filepath
                (some (downloadInQueueOptions respConfig options)))
              headers := none }] ∧
    hGet (hErase respConfig.headers "Accept") "Accept" = none ∧
    (downloadInQueueOptions respConfig none).headers =
      some (hErase respConfig.headers "Accept") ∧
    (downloadInQueueOptions respConfig none).proxy = formatProxy respConfig.proxy ∧
    (∀ o : DownloadOptions,
      (downloadInQueueOptions respConfig (some o)).headers =
        oOr o.headers (some (hErase respConfig.headers "Accept")) ∧
      (downloadInQueueOptions respConfig (some o)).proxy =
        oOr o.proxy (formatProxy respConfig.proxy)) :=
  ⟨rfl, hGet_hErase _ _, rfl, rfl, fun _ => ⟨rfl, rfl⟩⟩

/-- C10: when the caller-supplied options bind a headers key, both
download-callback option builders discard the inherited Accept-stripped
headers wholesale, so the resulting headers are exactly the caller's and
may again bind `Accept`. -/
theorem caller_headers_replace_inherited (respConfig : RequestConfig)
    (h : Headers) (p : Option String) (v : String) :
    (downloadInQueueOptions respConfig
      (some { headers := some h, proxy := p })).headers = some h ∧
    (downloadCbOptions respConfig
      (some { headers := some h, proxy := p })).headers = some h ∧
    hGet ((downloadInQueueOptions respConfig
      (some { headers := some [("Accept", v)], proxy := p })).headers.getD [])
      "Accept" = some v :=
  ⟨rfl, rfl, rfl⟩

/-- C1 counterexample: with the active flag false, retry and
downloadInQueue still each push one Task onto an empty queue, so the
pending count changes. -/
theorem inactive_injection_counterexample :
    retryCb false sampleConfig [] ≠ [] ∧
    downloadInQueue false sampleConfig [] "https://example.com/img.jpg"
      "img.jpg" none ≠ [] := by
  exact ⟨by decide, by decide⟩

/-- C1 amended: while active is false, follow is a no-op on the queue,
but retry and downloadInQueue still push exactly one new Task each — only
follow consults the active flag. -/
theorem inactive_gating (respConfig : RequestConfig) (q : List Task) (u : Url)
    (url filepath : String) (options : Option DownloadOptions) :
    follow false respConfig q u = q ∧
    (retryCb false respConfig q).length = q.length + 1 ∧
    (downloadInQueue false respConfig q url filepath options).length =
      q.length + 1 := by
  refine ⟨by simp [follow], ?_, ?_⟩ <;> simp [retryCb, downloadInQueue, push]

/-- C4 counterexample: an in-flight download operation is not aborted
when the shared cancellation token trips, because downloadResource hands
the download package no token. -/
theorem download_not_cancelled_counterexample :
    abortsOnCancel (NetOp.download "https://example.com/img.jpg" "img.jpg"
      (some { headers := some [], proxy := none })) = false :=
  rfl

/-- C4 amended: tripping the shared token aborts exactly the in-flight
Request-kind operations — every config built by Http.request carries the
token — while Download-kind operations never observe it. -/
theorem cancel_aborts_requests_only (url method : String) (body : Option String)
    (httpHeaders providerDefaultHeaders : Option Headers) (timeout : Nat)
    (r : ResolvedAgents) (du df : String) (opts : Option DownloadOptions) :
    abortsOnCancel (NetOp.request (mkRequestConfig url method body httpHeaders
      providerDefaultHeaders timeout r)) = true ∧
    abortsOnCancel (NetOp.download du df opts) = false :=
  ⟨rfl, rfl⟩

/-- C2 counterexample: with the proxy resolver configured and retry
budget 1, an execution whose attempts always fail performs 2 attempts but
invokes the proxy resolver only once, not twice. -/
theorem resolver_once_counterexample :
    (httpRequestExec true true true true 1
      (fun _ => Except.error "boom")).retryRun.attempts = 2 ∧
    (httpRequestExec true true true true 1
      (fun _ => Except.error "boom")).proxyCalls = 1 ∧
    (httpRequestExec true true true true 1
        (fun _ => Except.error "boom")).proxyCalls ≠
      (httpRequestExec true true true true 1
        (fun _ => Except.error "boom")).retryRun.attempts :=
  ⟨rfl, rfl, by decide⟩

/-- C2 amended: each configured resolver is invoked exactly once per
Request execution, before the first attempt; the counts are independent
of the retry budget and of the attempts' outcomes, so every attempt
observes the same resolved values. -/
theorem resolver_once_per_execution (hasProxy hasUserAgent hasHeaders hasAuth : Bool)
    (retries1 retries2 : Nat) (attempt1 attempt2 : Nat → Except String Unit) :
    (httpRequestExec hasProxy hasUserAgent hasHeaders hasAuth retries1
      attempt1).proxyCalls = (if hasProxy then 1 else 0) ∧
    (httpRequestExec hasProxy hasUserAgent hasHeaders hasAuth retries1
      attempt1).userAgentCalls = (if hasUserAgent then 1 else 0) ∧
    (httpRequestExec hasProxy hasUserAgent hasHeaders hasAuth retries1
      attempt1).headersCalls = (if hasHeaders then 1 else 0) ∧
    (httpRequestExec hasProxy hasUserAgent hasHeaders hasAuth retries1
      attempt1).authCalls = (if hasAuth then 1 else 0) ∧
    (httpRequestExec hasProxy hasUserAgent hasHeaders hasAuth retries1
        attempt1).proxyCalls =
      (httpRequestExec hasProxy hasUserAgent hasHeaders hasAuth retries2
        attempt2).proxyCalls :=
  ⟨rfl, rfl, rfl, rfl, rfl⟩

theorem pRetryRun_allFail (attempt : Nat → Except String Unit)
    (hf : ∀ n, exceptIsError (attempt n) = true) :
    ∀ retriesLeft attemptNumber,
      (pRetryRun attempt attemptNumber retriesLeft).attempts = retriesLeft + 1 ∧
      (pRetryRun attempt attemptNumber retriesLeft).notifications.length =
        retriesLeft + 1 ∧
      exceptIsError (pRetryRun attempt attemptNumber retriesLeft).result = true := by
  intro retriesLeft
  induction retriesLeft with
  | zero =>
    intro a
    cases h : attempt a with
    | ok x => have := hf a; rw [h] at this; simp [exceptIsError] at this
    | error e => simp [pRetryRun, h, exceptIsError]
  | succ n ih =>
    intro a
    cases h : attempt a with
    | ok x => have := hf a; rw [h] at this; simp [exceptIsError] at this
    | error e =>
      have hrest := ih (a + 1)
      simp [pRetryRun, h, hrest.1, hrest.2.1, hrest.2.2]

/-- C3 amended: with retry budget r and attempts that always fail, the
pipeline performs exactly r + 1 attempts, emits exactly r + 1
failure-attempt notifications — one per failed attempt, the final attempt
included — and then settles with a single error. -/
theorem retry_exhaustion_counts (attempt : Nat → Except String Unit) (r : Nat)
    (hf : ∀ n, exceptIsError (attempt n) = true) :
    (pRetry attempt r).attempts = r + 1 ∧
    (pRetry attempt r).notifications.length = r + 1 ∧
    exceptIsError (pRetry attempt r).result = true :=
  pRetryRun_allFail attempt hf r 1

/-- C3 amended, at a concrete input: a constant failure with retry budget
2 performs 3 attempts and emits 3 notifications. -/
theorem retry_exhaustion_counts_witness :
    (∀ n : Nat, exceptIsError
      ((fun _ : Nat => (Except.error "boom" : Except String Unit)) n) = true) ∧
    (pRetry (fun _ => Except.error "boom") 2).attempts = 2 + 1 ∧
    (pRetry (fun _ => Except.error "boom") 2).notifications.length = 2 + 1 := by
  have h := retry_exhaustion_counts (fun _ => Except.error "boom") 2 (fun _ => rfl)
  exact ⟨fun _ => rfl, h.1, h.2.1⟩

/-- C3 counterexample: with retry budget 1 and always-failing attempts,
the pipeline emits 2 failure notifications — attempt 1 with one retry
left and attempt 2 with none — not 1. -/
theorem retry_notification_count_counterexample :
    (pRetry (fun _ => (Except.error "boom" : Except String Unit))
      1).notifications.length = 2 ∧
    (pRetry (fun _ => (Except.error "boom" : Except String Unit))
      1).notifications = [(1, 1), (2, 0)] :=
  ⟨rfl, rfl⟩

/-- C8: an active follow with a truthy argument pushes exactly one
request Task; a bare string yields GET with no body and the default
Reference header; a descriptor's method, url and body are used as given,
and its Reference header defaults to the originating url unless the
descriptor's own headers bind Reference. -/
theorem follow_spec (respConfig : RequestConfig) (q : List Task) (u : Url)
    (ht : urlTruthy u = true) :
    follow true respConfig q u = q ++ [followTask respConfig u] ∧
    (∀ s, u = .str s →
      followTask respConfig u =
        { kind := .request
          method := some "GET"
          url := s
          body := none
          headers := some [("Reference", respConfig.url)] }) ∧
    (∀ uu m b hh, u = .customer uu m b hh →
      (followTask respConfig u).method = m ∧
      (followTask respConfig u).url = uu ∧
      (followTask respConfig u).body = b.map TaskBody.data ∧
      hGet ((followTask respConfig u).headers.getD []) "Reference" =
        oOr (hGet (hh.getD []) "Reference") (some respConfig.url)) := by
  refine ⟨by simp [follow, ht, push], ?_, ?_⟩
  · rintro s rfl
    rfl
  · rintro uu m b hh rfl
    refine ⟨rfl, rfl, rfl, ?_⟩
    show hGet ([("Reference", respConfig.url)] ++ hh.getD []) "Reference" = _
    rw [hGet_append]
    rfl

/-- C8 at a concrete input: following a bare url from the sample response
pushes one GET Task whose Reference header is the originating url. -/
theorem follow_spec_witness :
    urlTruthy (Url.str "https://example.com/next") = true ∧
    follow true sampleConfig [] (Url.str "https://example.com/next") =
      [followTask sampleConfig (Url.str "https://example.com/next")] := by
  have h := follow_spec sampleConfig [] (Url.str "https://example.com/next")
    (by decide)
  exact ⟨by decide, by simpa using h.1⟩

/-- C9: at src/src/http.ts lines 115-120 each element of the Promise.all
array holds an inline await, so with four configured resolvers of five
time units each the four resolver calls occupy back-to-back intervals and
no two of them overlap — the calls are strictly sequential, not
concurrent. -/
theorem resolver_calls_sequential :
    resolverIntervals 0 [5, 5, 5, 5] =
      [{ start := 0, stop := 5 }, { start := 5, stop := 10 },
       { start := 10, stop := 15 }, { start := 15, stop := 20 }] ∧
    (resolverIntervals 0 [5, 5, 5, 5]).Pairwise
      (fun a b => overlaps a b = false) := by
  refine ⟨rfl, ?_⟩
  decide

end Crawler
